import Mathlib

/-!
Shallow embedding of the homework-status polling bot
(src/homework.py and src/exceptions.py) and proofs about it.

Decoded JSON payloads are modelled by the inductive `Json`; Python
exceptions raised by the scripts are modelled by the inductive `PyErr`
(the four classes of exceptions.py plus the builtin TypeError, KeyError
and IndexError that the code can also raise); fallible Python functions
become Lean functions returning `Except PyErr _`.  External effects
(the HTTP request of `requests.get` and the Telegram transport of
`bot.send_message`) are modelled as explicit per-cycle inputs.
-/

/-- A decoded JSON value, as produced by `response.json()`. -/
inductive Json where
  | jnull
  | jbool (b : Bool)
  | jnum (n : Int)
  | jstr (s : String)
  | jarr (items : List Json)
  | jobj (fields : List (String × Json))

mutual

/-- Structural equality of JSON values (Python `==` on decoded payloads). -/
def Json.beq : Json → Json → Bool
  | .jnull, .jnull => true
  | .jbool a, .jbool b => a == b
  | .jnum a, .jnum b => a == b
  | .jstr a, .jstr b => a == b
  | .jarr xs, .jarr ys => Json.beqList xs ys
  | .jobj xs, .jobj ys => Json.beqFields xs ys
  | _, _ => false

def Json.beqList : List Json → List Json → Bool
  | [], [] => true
  | x :: xs, y :: ys => Json.beq x y && Json.beqList xs ys
  | _, _ => false

def Json.beqFields : List (String × Json) → List (String × Json) → Bool
  | [], [] => true
  | (k, x) :: xs, (l, y) :: ys => k == l && Json.beq x y && Json.beqFields xs ys
  | _, _ => false

end

instance : BEq Json := ⟨Json.beq⟩

mutual

/-- Python `repr` of a decoded JSON value (used by `str` on lists/dicts). -/
def Json.pyRepr : Json → String
  | .jnull => "None"
  | .jbool true => "True"
  | .jbool false => "False"
  | .jnum n => toString n
  | .jstr s => "\x27" ++ s ++ "\x27"
  | .jarr xs => "[" ++ Json.pyReprList xs ++ "]"
  | .jobj kvs => "\x7b" ++ Json.pyReprFields kvs ++ "\x7d"

def Json.pyReprList : List Json → String
  | [] => ""
  | [x] => Json.pyRepr x
  | x :: y :: xs => Json.pyRepr x ++ ", " ++ Json.pyReprList (y :: xs)

def Json.pyReprFields : List (String × Json) → String
  | [] => ""
  | [(k, v)] => "\x27" ++ k ++ "\x27: " ++ Json.pyRepr v
  | (k, v) :: f :: fs =>
      "\x27" ++ k ++ "\x27: " ++ Json.pyRepr v ++ ", " ++ Json.pyReprFields (f :: fs)

end

/-- Python `str` of a decoded JSON value, as interpolated by an f-string. -/
def Json.pyStr : Json → String
  | .jstr s => s
  | j => Json.pyRepr j

/-- Key lookup in a decoded JSON object; `none` for non-objects. -/
def Json.lookup : Json → String → Option Json
  | .jobj kvs, k => kvs.lookup k
  | _, _ => none

/-- Whether the value is a dict (Python `isinstance(x, dict)`). -/
def Json.isDict : Json → Bool
  | .jobj _ => true
  | _ => false

/-- Whether the value is a list (Python `isinstance(x, list)`). -/
def Json.isList : Json → Bool
  | .jarr _ => true
  | _ => false

/--
Exceptions the scripts can raise: the four classes of
src/exceptions.py plus the builtin Python exceptions that
src/homework.py can also raise (TypeError, KeyError, IndexError).
-/
inductive PyErr where
  | requestStatusError (msg : String)
  | keyNotFound (msg : String)
  | sendMessageError (msg : String)
  | verdictNotFound (msg : String)
  | typeError (msg : String)
  | keyError (key : String)
  | indexError

/-- Python `str(error)`, used when an exception is interpolated into an
f-string (for `KeyError` Python shows the repr of the key, for the
`IndexError` of `homeworks[0]` the fixed text `list index out of range`). -/
def PyErr.pyStr : PyErr → String
  | .requestStatusError m => m
  | .keyNotFound m => m
  | .sendMessageError m => m
  | .verdictNotFound m => m
  | .typeError m => m
  | .keyError k => "\x27" ++ k ++ "\x27"
  | .indexError => "list index out of range"

/-- Python subscript `container[key]` with a string key:
objects yield the value or `KeyError`; everything else is `TypeError`. -/
def pyGetItem (container : Json) (key : String) : Except PyErr Json :=
  match container with
  | .jobj kvs =>
      match kvs.lookup key with
      | some v => .ok v
      | none => .error (.keyError key)
  | _ => .error (.typeError "value is not subscriptable by a string key")

/-- Whether `pat` occurs as a contiguous run inside `l`. -/
def subSearch (pat : List Char) : List Char → Bool
  | [] => pat.isEmpty
  | c :: rest => pat.isPrefixOf (c :: rest) || subSearch pat rest

/-- Python substring test `pat in s`. -/
def strContainsSub (s pat : String) : Bool :=
  subSearch pat.toList s.toList

/-- Python membership `key in container` for a string key:
dict key test, list element test, substring test on strings,
`TypeError` on non-iterables. -/
def pyContains (container : Json) (key : String) : Except PyErr Bool :=
  match container with
  | .jobj kvs => .ok (kvs.lookup key).isSome
  | .jarr xs => .ok (xs.contains (.jstr key))
  | .jstr s => .ok (strContainsSub s key)
  | _ => .error (.typeError "argument is not iterable")

/-- `HOMEWORK_VERDICTS` (src/homework.py lines 34-38). -/
def HOMEWORK_VERDICTS : List (String × String) :=
  [("approved", "Работа проверена: ревьюеру всё понравилось. Ура!"),
   ("reviewing", "Работа взята на проверку ревьюером."),
   ("rejected", "Работа проверена: у ревьюера есть замечания.")]

/-- Python `HOMEWORK_VERDICTS[status]` preceded by the membership test
`status in HOMEWORK_VERDICTS`: a string status is looked up among the
keys, other hashable values are simply not members, and unhashable
values (lists, dicts) raise `TypeError`. -/
def verdictFor (status : Json) : Except PyErr (Option String) :=
  match status with
  | .jstr s => .ok (HOMEWORK_VERDICTS.lookup s)
  | .jarr _ => .error (.typeError "unhashable type: \x27list\x27")
  | .jobj _ => .error (.typeError "unhashable type: \x27dict\x27")
  | _ => .ok none

/-- The message of `check_response` for a missing key: the source omits
the `f` prefix on the literal (line 101), so the braces are literal text
and the key name is never interpolated. -/
def checkResponseKeyMsg : String :=
  "В ответе от API отсутствуeт ключ: \x7bkey\x7d."

/-- `check_response` (src/homework.py lines 88-109): checks that the
response is a dict holding the keys `homeworks` and `current_date` and
that `homeworks` is a list, then returns `homeworks[0]` — which raises
`IndexError` when the list is empty. -/
def check_response (response : Json) : Except PyErr Json :=
  match response with
  | .jobj kvs =>
      match kvs.lookup "homeworks", kvs.lookup "current_date" with
      | none, _ => .error (.keyNotFound checkResponseKeyMsg)
      | some _, none => .error (.keyNotFound checkResponseKeyMsg)
      | some (.jarr homeworks), some _ =>
          match homeworks with
          | [] => .error .indexError
          | h :: _ => .ok h
      | some _, some _ => .error (.typeError "Homeworks не является списком")
  | _ => .error (.typeError "Ответ от API не является словарем")

/-- `parse_status` (src/homework.py lines 112-133): requires the keys
`status` and `homework_name` (checked in that order), requires the
status to be a key of `HOMEWORK_VERDICTS`, and renders the fixed
message template. -/
def parse_status (homework : Json) : Except PyErr String :=
  match pyContains homework "status" with
  | .error e => .error e
  | .ok false =>
      .error (.keyNotFound ("У списка homeworks отсутствуeт ключ: " ++ "status" ++ "."))
  | .ok true =>
    match pyContains homework "homework_name" with
    | .error e => .error e
    | .ok false =>
        .error (.keyNotFound ("У списка homeworks отсутствуeт ключ: " ++ "homework_name" ++ "."))
    | .ok true =>
      match pyGetItem homework "homework_name" with
      | .error e => .error e
      | .ok homework_name =>
        match pyGetItem homework "status" with
        | .error e => .error e
        | .ok homework_status =>
          match verdictFor homework_status with
          | .error e => .error e
          | .ok none => .error (.verdictNotFound "Неожиданный статус домашней работы.")
          | .ok (some verdict) =>
              .ok ("Изменился статус проверки работы \"" ++ homework_name.pyStr ++ "\". " ++ verdict)

/-- Outcome of the external HTTP call of `requests.get` in one cycle:
either the call itself raised, or the server replied with a status code
and a body whose JSON decoding either succeeded or raised. -/
inductive HttpResult where
  | netFail (err : String)
  | reply (status : Nat) (body : Except String Json)

/-- `get_api_answer` (src/homework.py lines 64-85) applied to the
outcome of the HTTP call.  A non-200 status raises `RequestStatusError`
inside the `try`, and the broad `except` wraps every exception — the
inner raise, a network failure, or a `.json()` decoding failure — into
a fresh `RequestStatusError` whose text embeds the original error. -/
def get_api_answer (r : HttpResult) : Except PyErr Json :=
  match r with
  | .netFail e =>
      .error (.requestStatusError ("Ошибка при выполнении запроса:" ++ e))
  | .reply status body =>
      if status ≠ 200 then
        .error (.requestStatusError ("Ошибка при выполнении запроса:" ++
          ("Ошибка при выполнении запроса." ++ "Статус:" ++ toString status ++ ".")))
      else
        match body with
        | .ok j => .ok j
        | .error e =>
            .error (.requestStatusError ("Ошибка при выполнении запроса:" ++ e))

/-- Outcome of one call to the Telegram transport `bot.send_message`:
`none` means it succeeded, `some e` means it raised with text `e`. -/
def SendOutcome : Type := Option String

/-- `send_message` (src/homework.py lines 50-61) applied to the outcome
of the transport call: a transport exception is wrapped into
`SendMessageError`. -/
def send_message (outcome : SendOutcome) (message : String) : Except PyErr Unit :=
  match outcome with
  | none => .ok ()
  | some err =>
      .error (.sendMessageError ("Ошибка при отправке сообщения: " ++ err))

/-- The mutable state of `main` (src/homework.py lines 142-144):
`timestamp` holds whatever `response[current_date]` last returned
(initially the int 0), plus the last-sent message and last error text. -/
structure LoopState where
  timestamp : Json
  last_message : String
  last_error : String

/-- The state at entry of the `while` loop: `timestamp = 0`,
`last_message = last_error = empty string`. -/
def initialState : LoopState := ⟨.jnum 0, "", ""⟩

/-- The external world of one loop iteration: the HTTP outcome, the
transport outcome for the send attempted in the `try` body (`send1`),
and the transport outcome for the send attempted in the `except`
handler (`send2`).  Each is consulted only if that call happens. -/
structure CycleEnv where
  http : HttpResult
  send1 : SendOutcome
  send2 : SendOutcome

/-- Result of one loop iteration: either the cycle reached
`time.sleep` and the loop goes on (`next`), or an exception escaped the
`except` handler and the loop — and `main` — terminated (`crash`).
Both record the state left behind and the messages passed to
`send_message`, in order, delivered or not. -/
inductive CycleResult where
  | next (st : LoopState) (calls : List String)
  | crash (e : PyErr) (st : LoopState) (calls : List String)

/-- The `try` body of one iteration (src/homework.py lines 146-157):
fetch, read `response[current_date]` into the cursor, validate,
translate, compare with `last_message` and send.  On an exception the
body hands back the error together with the state already mutated and
the send calls already made. -/
def tryBody (st : LoopState) (env : CycleEnv) :
    (LoopState × List String) ⊕ (PyErr × LoopState × List String) :=
  match get_api_answer env.http with
  | .error e => .inr (e, st, [])
  | .ok response =>
    match pyGetItem response "current_date" with
    | .error e => .inr (e, st, [])
    | .ok cd =>
      let st := { st with timestamp := cd }
      match check_response response with
      | .error e => .inr (e, st, [])
      | .ok homework =>
        match parse_status homework with
        | .error e => .inr (e, st, [])
        | .ok message =>
          if message ≠ st.last_message then
            match send_message env.send1 message with
            | .ok _ => .inl ({ st with last_message := message }, [message])
            | .error e => .inr (e, st, [message])
          else
            match send_message env.send1 message with
            | .ok _ => .inl (st, [message])
            | .error e => .inr (e, st, [message])

/-- The `except` handler of one iteration (src/homework.py lines
158-166): build the failure-report message; when it differs from
`last_error`, send it (a raise here escapes the loop) and remember it;
otherwise just sleep. -/
def handleError (st : LoopState) (send2 : SendOutcome) (e : PyErr)
    (calls : List String) : CycleResult :=
  let message := "Сбой в работе программы: " ++ e.pyStr
  if st.last_error ≠ message then
    match send_message send2 message with
    | .ok _ => .next { st with last_error := message } (calls ++ [message])
    | .error e2 => .crash e2 st (calls ++ [message])
  else
    .next st calls

/-- One full iteration of the `while True` loop. -/
def run_cycle (st : LoopState) (env : CycleEnv) : CycleResult :=
  match tryBody st env with
  | .inl (st2, calls) => .next st2 calls
  | .inr (e, st2, calls) => handleError st2 env.send2 e calls

/-- A finite prefix of a run of the loop: final state, every message
passed to `send_message` across the processed cycles, and whether an
escaped exception terminated the loop before the inputs ran out. -/
structure RunTrace where
  final : LoopState
  calls : List String
  crashed : Bool

/-- Run the loop over a finite sequence of per-cycle environments. -/
def run_cycles : LoopState → List CycleEnv → RunTrace
  | st, [] => ⟨st, [], false⟩
  | st, env :: envs =>
    match run_cycle st env with
    | .next st2 sent =>
        let t := run_cycles st2 envs
        ⟨t.final, sent ++ t.calls, t.crashed⟩
    | .crash _ st2 sent => ⟨st2, sent, true⟩

/-- The three environment variables read at import time
(src/homework.py lines 25-27): `none` models an unset variable. -/
structure Config where
  practicum_token : Option String
  telegram_token : Option String
  telegram_chat_id : Option String

/-- Python truthiness of an `os.getenv` result: unset and the empty
string are falsy. -/
def truthy : Option String → Bool
  | none => false
  | some s => ¬ s.isEmpty

/-- `check_tokens` (src/homework.py lines 41-47): when any of the three
variables is falsy the process stops via `sys.exit()` — which carries
no argument, so the interpreter exits with status 0.  Returns
`some exitCode` when the process exits, `none` when it goes on. -/
def check_tokens (cfg : Config) : Option Nat :=
  if ¬ (truthy cfg.practicum_token && truthy cfg.telegram_chat_id &&
        truthy cfg.telegram_token) then
    some 0
  else
    none

/-- Outcome of `main` (src/homework.py lines 136-166) on a finite
prefix of cycles: stopped by `check_tokens` before the loop, crashed on
the unprotected startup send before the loop, or entered the loop. -/
inductive MainOutcome where
  | exited (code : Nat)
  | crashedBeforeLoop (e : PyErr)
  | looped (t : RunTrace)

/-- `main`: token gate, the unprotected startup notification
`Начинаю проверку домашних работ`, then the loop (the Telegram `Bot`
constructor is an external collaborator and is not modelled). -/
def main_run (cfg : Config) (startSend : SendOutcome)
    (envs : List CycleEnv) : MainOutcome :=
  match check_tokens cfg with
  | some code => .exited code
  | none =>
    match send_message startSend "Начинаю проверку домашних работ" with
    | .error e => .crashedBeforeLoop e
    | .ok _ => .looped (run_cycles initialState envs)

/-- The state a cycle result leaves behind. -/
def CycleResult.state : CycleResult → LoopState
  | .next st _ => st
  | .crash _ st _ => st

/-- The send-call arguments of a cycle result. -/
def CycleResult.calls : CycleResult → List String
  | .next _ calls => calls
  | .crash _ _ calls => calls

/-- Whether the cycle reached `time.sleep` (so the loop goes on). -/
def CycleResult.isNext : CycleResult → Bool
  | .next _ _ => true
  | .crash _ _ _ => false

/-- The message a cycle would translate and try to send: the
composition fetch → cursor read → validate → translate, ignoring state. -/
def cycleMessage (env : CycleEnv) : Option String :=
  match get_api_answer env.http with
  | .error _ => none
  | .ok response =>
    match pyGetItem response "current_date" with
    | .error _ => none
    | .ok _ =>
      match check_response response with
      | .error _ => none
      | .ok homework => (parse_status homework).toOption

/-! Concrete payloads used by the end-to-end scenarios of the spec. -/

/-- The homework record of scenario A. -/
def hw1 : Json := .jobj [("homework_name", .jstr "hw1"), ("status", .jstr "approved")]

/-- The response of scenario A. -/
def respA : Json := .jobj [("homeworks", .jarr [hw1]), ("current_date", .jnum 1000)]

/-- The response of scenario B: empty homeworks list. -/
def respB : Json := .jobj [("homeworks", .jarr []), ("current_date", .jnum 1000)]

/-- A cycle where the server answers scenario A and both transports work. -/
def envA : CycleEnv := ⟨.reply 200 (.ok respA), none, none⟩

/-- A cycle where the server answers scenario B and both transports work. -/
def envB : CycleEnv := ⟨.reply 200 (.ok respB), none, none⟩

/-- Scenario A, but the server reports the older `current_date` 5. -/
def respD : Json := .jobj [("homeworks", .jarr [hw1]), ("current_date", .jnum 5)]

/-- A cycle delivering `respD` with working transports. -/
def envD : CycleEnv := ⟨.reply 200 (.ok respD), none, none⟩

/-- The message of scenario A. -/
def msgA : String :=
  "Изменился статус проверки работы \"hw1\". Работа проверена: ревьюеру всё понравилось. Ура!"

/-- The payload of the C3 counterexample: `current_date` present,
`homeworks` missing. -/
def respC3 : Json := .jobj [("current_date", .jnum 5)]

/-- A cycle delivering `respC3` with working transports. -/
def envC3 : CycleEnv := ⟨.reply 200 (.ok respC3), none, none⟩

/-- A cycle whose fetch fails and whose failure-report send also fails. -/
def envCrash : CycleEnv := ⟨.netFail "boom", none, some "tg down"⟩

/-- The state carried by either side of a `tryBody` result. -/
def bodyState : (LoopState × List String ⊕ PyErr × LoopState × List String) → LoopState
  | .inl (s, _) => s
  | .inr (_, s, _) => s

/-- The failure condition of the fetch: the network call raised, the
status is not 200, or the 200-response body failed to decode. -/
def fetchFails : HttpResult → Bool
  | .netFail _ => true
  | .reply status body =>
      (status != 200) || (match body with | .error _ => true | .ok _ => false)

/-- The `RequestStatusError` text produced for an HTTP 500 reply: the
inner raise of `get_api_answer` is wrapped once more by its own broad
`except`, duplicating the prefix. -/
def reqErr500 : String :=
  "Ошибка при выполнении запроса:Ошибка при выполнении запроса.Статус:500."

/-- The failure-report message the loop sends for an HTTP 500 reply. -/
def failMsg500 : String :=
  "Сбой в работе программы: Ошибка при выполнении запроса:Ошибка при выполнении запроса.Статус:500."

/-! Helper lemmas about the loop pieces. -/

/-- The `except` handler never touches the cursor. -/
theorem handleError_timestamp (st : LoopState) (s2 : SendOutcome) (e : PyErr)
    (calls : List String) :
    (handleError st s2 e calls).state.timestamp = st.timestamp := by
  simp only [handleError]
  split
  · cases s2 <;> simp [send_message, CycleResult.state]
  · simp [CycleResult.state]

/-- When the handler's send succeeds, the handler reaches `time.sleep`. -/
theorem handleError_none_isNext (st : LoopState) (e : PyErr)
    (calls : List String) :
    (handleError st none e calls).isNext = true := by
  simp only [handleError]
  split <;> simp [send_message, CycleResult.isNext]

/-- A string is a key of `HOMEWORK_VERDICTS` exactly when it is one of
the three recognized statuses. -/
theorem verdict_lookup_none (s : String) :
    HOMEWORK_VERDICTS.lookup s = none ↔
      ¬ (s = "approved" ∨ s = "reviewing" ∨ s = "rejected") := by
  by_cases h1 : s = "approved"
  · simp [HOMEWORK_VERDICTS, List.lookup, h1]
  · by_cases h2 : s = "reviewing"
    · simp [HOMEWORK_VERDICTS, List.lookup, h1, h2]
    · by_cases h3 : s = "rejected"
      · simp [HOMEWORK_VERDICTS, List.lookup, h1, h2, h3]
      · have e1 : (s == "approved") = false := beq_eq_false_iff_ne.mpr h1
        have e2 : (s == "reviewing") = false := beq_eq_false_iff_ne.mpr h2
        have e3 : (s == "rejected") = false := beq_eq_false_iff_ne.mpr h3
        simp [HOMEWORK_VERDICTS, List.lookup, e1, e2, e3, h1, h2, h3]

/--
Claim C6: for every homework record containing both `homework_name`
and `status` with a recognized status, `parse_status` returns exactly
the template `Изменился статус проверки работы "{name}". {verdict}`
with the record's name embedded verbatim and the fixed verdict text
mapped from the status by `HOMEWORK_VERDICTS`.
-/
theorem parse_status_recognized (hw : Json) (name s v : String)
    (hname : hw.lookup "homework_name" = some (.jstr name))
    (hstatus : hw.lookup "status" = some (.jstr s))
    (hv : HOMEWORK_VERDICTS.lookup s = some v) :
    parse_status hw =
      .ok ("Изменился статус проверки работы \"" ++ name ++ "\". " ++ v) := by
  cases hw with
  | jobj kvs =>
      simp only [Json.lookup] at hname hstatus
      simp [parse_status, pyContains, pyGetItem, verdictFor, hname, hstatus, hv,
        Json.pyStr]
  | jnull => simp [Json.lookup] at hname
  | jbool b => simp [Json.lookup] at hname
  | jnum n => simp [Json.lookup] at hname
  | jstr s => simp [Json.lookup] at hname
  | jarr xs => simp [Json.lookup] at hname

/-- Witness for C6: scenario A's record translates to the exact message
the claim displays. -/
theorem parse_status_recognized_witness :
    parse_status hw1 = .ok msgA :=
  parse_status_recognized hw1 "hw1" "approved"
    "Работа проверена: ревьюеру всё понравилось. Ура!" rfl rfl rfl

/--
Claim C10: for every response dict holding both keys where `homeworks`
is the empty list, `check_response` evaluates the unguarded
`homeworks[0]` and raises `IndexError` — outside the typed taxonomy of
exceptions.py — instead of returning a record or an absent value.
-/
theorem check_response_empty_homeworks (kvs : List (String × Json)) (cd : Json)
    (hh : kvs.lookup "homeworks" = some (.jarr []))
    (hc : kvs.lookup "current_date" = some cd) :
    check_response (.jobj kvs) = .error .indexError := by
  simp [check_response, hh, hc]

/-- Witness for C10: scenario B's response makes `check_response` raise
`IndexError`. -/
theorem check_response_empty_homeworks_witness :
    check_response respB = .error .indexError :=
  check_response_empty_homeworks _ (.jnum 1000) rfl rfl

/--
Claim C7: for every homework record, `parse_status` fails with
`KeyNotFound` iff `status` or `homework_name` is absent, and — when
both keys are present and the status is text, as the record type
prescribes — fails with `VerdictNotFound` iff the status is not one of
`approved`, `reviewing`, `rejected`.
-/
theorem parse_status_error_taxonomy (kvs : List (String × Json)) :
    ((∃ m, parse_status (Json.jobj kvs) = .error (.keyNotFound m)) ↔
      ((Json.jobj kvs).lookup "status" = none ∨
       (Json.jobj kvs).lookup "homework_name" = none)) ∧
    (∀ (s : String) (name : Json),
      (Json.jobj kvs).lookup "status" = some (.jstr s) →
      (Json.jobj kvs).lookup "homework_name" = some name →
      ((∃ m, parse_status (Json.jobj kvs) = .error (.verdictNotFound m)) ↔
        ¬ (s = "approved" ∨ s = "reviewing" ∨ s = "rejected"))) := by
  constructor
  · cases hs : kvs.lookup "status" with
    | none => simp [parse_status, pyContains, Json.lookup, hs]
    | some sv =>
      cases hn : kvs.lookup "homework_name" with
      | none => simp [parse_status, pyContains, Json.lookup, hs, hn]
      | some nv =>
        cases sv with
        | jstr s =>
            cases hl : HOMEWORK_VERDICTS.lookup s <;>
              simp [parse_status, pyContains, Json.lookup, hs, hn, pyGetItem,
                verdictFor, hl]
        | jnull =>
            simp [parse_status, pyContains, Json.lookup, hs, hn, pyGetItem, verdictFor]
        | jbool b =>
            simp [parse_status, pyContains, Json.lookup, hs, hn, pyGetItem, verdictFor]
        | jnum n =>
            simp [parse_status, pyContains, Json.lookup, hs, hn, pyGetItem, verdictFor]
        | jarr xs =>
            simp [parse_status, pyContains, Json.lookup, hs, hn, pyGetItem, verdictFor]
        | jobj f =>
            simp [parse_status, pyContains, Json.lookup, hs, hn, pyGetItem, verdictFor]
  · intro s name h1 h2
    simp only [Json.lookup] at h1 h2
    cases hl : HOMEWORK_VERDICTS.lookup s with
    | none =>
        simp [parse_status, pyContains, Json.lookup, h1, h2, pyGetItem,
          verdictFor, hl]
        have h := (verdict_lookup_none s).mp hl
        push_neg at h
        exact h
    | some v =>
        have hP : s = "approved" ∨ s = "reviewing" ∨ s = "rejected" := by
          by_contra hc
          rw [(verdict_lookup_none s).mpr hc] at hl
          exact Option.noConfusion hl
        simp [parse_status, pyContains, Json.lookup, h1, h2, pyGetItem,
          verdictFor, hl, hP]

/-- Witness for C7: an unrecognized text status with both keys present
fails with `VerdictNotFound`. -/
theorem parse_status_error_taxonomy_witness :
    ∃ m, parse_status (Json.jobj [("status", .jstr "weird"), ("homework_name", .jstr "x")]) =
      .error (.verdictNotFound m) :=
  ((parse_status_error_taxonomy
      [("status", .jstr "weird"), ("homework_name", .jstr "x")]).2
    "weird" (.jstr "x") rfl rfl).mpr (by decide)

/--
Claim C1 as stated is false on the code: two consecutive cycles that
translate to the identical message invoke `send_message` twice for it —
the `else` branch of the comparison (src/homework.py lines 154-156)
logs that no new status was found and then sends the message anyway.
-/
theorem dedup_counterexample :
    (run_cycles initialState [envA, envA]).calls.count msgA = 2 := by rfl

/--
Claim C1 (amended): every cycle compares the translated message to
`last_message`, but `send_message` is invoked for the message in both
branches of the comparison; only the update of `last_message` (and an
info log) is conditional.  So a cycle that translates a message always
performs exactly one notifier invocation for it, duplicate or not.
-/
theorem notifier_invoked_every_successful_cycle (st : LoopState) (env : CycleEnv)
    (m : String) (hm : cycleMessage env = some m) (hs : env.send1 = none) :
    (run_cycle st env).calls = [m] := by
  cases hg : get_api_answer env.http with
  | error e => simp [cycleMessage, hg] at hm
  | ok response =>
    cases hc : pyGetItem response "current_date" with
    | error e => simp [cycleMessage, hg, hc] at hm
    | ok cd =>
      cases hr : check_response response with
      | error e => simp [cycleMessage, hg, hc, hr] at hm
      | ok homework =>
        cases hp : parse_status homework with
        | error e => simp [cycleMessage, hg, hc, hr, hp, Except.toOption] at hm
        | ok msg =>
          simp [cycleMessage, hg, hc, hr, hp, Except.toOption] at hm
          subst hm
          simp only [run_cycle, tryBody, hg, hc, hr, hp, hs, send_message]
          by_cases hd : msg ≠ st.last_message
          · simp [hd, CycleResult.calls]
          · simp [hd, CycleResult.calls]

/-- Witness for the amended C1: scenario A's cycle invokes the notifier
exactly once with scenario A's message. -/
theorem notifier_invoked_witness :
    (run_cycle initialState envA).calls = [msgA] :=
  notifier_invoked_every_successful_cycle initialState envA msgA rfl rfl

/--
Claim C2 as stated is false on the code: on the response
`homeworks = [], current_date = 1000` the cycle does send a
notification — `check_response` raises `IndexError` on `homeworks[0]`
and the `except` handler sends the failure report — although, as
claimed, the cursor does advance to 1000.
-/
theorem emptyList_notification_counterexample :
    (run_cycle initialState envB).calls =
      ["Сбой в работе программы: list index out of range"] ∧
    (run_cycle initialState envB).state.timestamp = .jnum 1000 :=
  ⟨rfl, rfl⟩

/--
Claim C2 (amended): on the response `homeworks = [], current_date =
1000` the cursor advances to 1000 (it is read before validation), but
`check_response` does not handle the empty list: `homeworks[0]` raises
`IndexError`, and the cycle sends the failure report `Сбой в работе
программы: list index out of range` (when not suppressed as a
duplicate) instead of sending nothing.
-/
theorem emptyList_cycle_behavior (st : LoopState)
    (h : st.last_error ≠ "Сбой в работе программы: list index out of range") :
    run_cycle st envB =
      .next ⟨.jnum 1000, st.last_message,
        "Сбой в работе программы: list index out of range"⟩
        ["Сбой в работе программы: list index out of range"] := by
  have h1 : tryBody st envB =
      .inr (.indexError, ⟨.jnum 1000, st.last_message, st.last_error⟩, []) := rfl
  have hmsg : ("Сбой в работе программы: " ++ PyErr.pyStr .indexError : String) =
      "Сбой в работе программы: list index out of range" := rfl
  simp only [run_cycle, h1, handleError, hmsg, send_message, List.nil_append]
  rw [if_pos h]
  rfl

/-- Witness for the amended C2: from the initial state, scenario B's
cycle advances the cursor to 1000 and sends the failure report. -/
theorem emptyList_cycle_behavior_witness :
    run_cycle initialState envB =
      .next ⟨.jnum 1000, "", "Сбой в работе программы: list index out of range"⟩
        ["Сбой в работе программы: list index out of range"] :=
  emptyList_cycle_behavior initialState (by decide)

/--
Claim C3 as stated is false on the code: for the payload
`current_date = 5` with `homeworks` missing, `check_response` does fail
with `KeyNotFound`, but the cursor IS advanced — `main` assigns
`timestamp = response[current_date]` (line 148) before calling
`check_response` (line 149).
-/
theorem missing_homeworks_cursor_advances :
    (run_cycle initialState envC3).state.timestamp = .jnum 5 ∧
    initialState.timestamp = .jnum 0 :=
  ⟨rfl, rfl⟩

/--
Claim C3 (amended): for every dict payload missing `homeworks` or
`current_date`, `check_response` fails with `KeyNotFound`; but because
`main` reads `response[current_date]` before validating, the cursor is
left unchanged only when `current_date` itself is missing (in which
case the read raises the builtin `KeyError` before `check_response`
even runs); when only `homeworks` is missing the cursor is advanced to
the payload's `current_date`.
-/
theorem missing_key_validation (j : Json) (st : LoopState) (env : CycleEnv)
    (hhttp : env.http = .reply 200 (.ok j)) (hdict : j.isDict = true)
    (hmiss : j.lookup "homeworks" = none ∨ j.lookup "current_date" = none) :
    check_response j = .error (.keyNotFound checkResponseKeyMsg) ∧
    (j.lookup "current_date" = none →
      (run_cycle st env).state.timestamp = st.timestamp) := by
  cases j with
  | jobj kvs =>
    constructor
    · rcases hmiss with h | h
      · simp only [Json.lookup] at h
        simp [check_response, h]
      · simp only [Json.lookup] at h
        cases hh : kvs.lookup "homeworks" with
        | none => simp [check_response, hh]
        | some v => simp [check_response, hh, h]
    · intro hcd
      simp only [Json.lookup] at hcd
      simp [run_cycle, tryBody, hhttp, get_api_answer, pyGetItem, hcd,
        handleError_timestamp]
  | jnull => simp [Json.isDict] at hdict
  | jbool b => simp [Json.isDict] at hdict
  | jnum n => simp [Json.isDict] at hdict
  | jstr s => simp [Json.isDict] at hdict
  | jarr xs => simp [Json.isDict] at hdict

/-- Witness for the amended C3: the empty dict payload fails validation
with `KeyNotFound` and, its `current_date` being missing, leaves the
cursor untouched. -/
theorem missing_key_validation_witness :
    check_response (Json.jobj []) = .error (.keyNotFound checkResponseKeyMsg) ∧
    (run_cycle initialState
        ⟨.reply 200 (.ok (.jobj [])), none, none⟩).state.timestamp =
      initialState.timestamp :=
  ⟨(missing_key_validation (.jobj []) initialState
      ⟨.reply 200 (.ok (.jobj [])), none, none⟩ rfl rfl (Or.inl rfl)).1,
   (missing_key_validation (.jobj []) initialState
      ⟨.reply 200 (.ok (.jobj [])), none, none⟩ rfl rfl (Or.inl rfl)).2 rfl⟩

/--
Claim C4 as stated is false on the code: when a processing error's
failure-report notification itself fails to be delivered, the
`SendMessageError` raised by `send_message` inside the `except` handler
(src/homework.py line 161) is not caught by anything, so the loop
terminates — the second cycle below is never processed and its message
is never sent.
-/
theorem loop_crash_counterexample :
    (run_cycles initialState [envCrash, envA]).crashed = true ∧
    (run_cycles initialState [envCrash, envA]).calls =
      ["Сбой в работе программы: Ошибка при выполнении запроса:boom"] :=
  ⟨rfl, rfl⟩

/--
Claim C4 (amended): every processing error raised inside the cycle
body is caught by the broad `except`, and the cycle reaches
`time.sleep` — provided the failure-report notification is delivered
(or suppressed as a duplicate).  Runs all of whose cycles have a
working handler transport never terminate on a processing error.  But
if the failure report itself fails to send, the `SendMessageError`
escapes and the loop terminates.
-/
theorem loop_survives_with_delivered_reports :
    (∀ (st : LoopState) (env : CycleEnv), env.send2 = none →
      (run_cycle st env).isNext = true) ∧
    (∀ (st : LoopState) (envs : List CycleEnv),
      (∀ e ∈ envs, e.send2 = none) → (run_cycles st envs).crashed = false) := by
  have step : ∀ (st : LoopState) (env : CycleEnv), env.send2 = none →
      (run_cycle st env).isNext = true := by
    intro st env h
    unfold run_cycle
    cases htb : tryBody st env with
    | inl p => simp [CycleResult.isNext]
    | inr p =>
        obtain ⟨e, st2, calls⟩ := p
        rw [h]
        exact handleError_none_isNext st2 e calls
  refine ⟨step, ?_⟩
  intro st envs
  induction envs generalizing st with
  | nil => intro _; rfl
  | cons e es ih =>
      intro h
      have he : e.send2 = none := h e (List.mem_cons_self e es)
      have hnext := step st e he
      cases hc : run_cycle st e with
      | next st2 sent =>
          simp only [run_cycles, hc]
          exact ih st2 (fun x hx => h x (List.mem_cons_of_mem e hx))
      | crash e2 st2 sent =>
          rw [hc] at hnext
          simp [CycleResult.isNext] at hnext

/-- Witness for the amended C4: a single failing fetch with a working
handler transport does not terminate the loop. -/
theorem loop_survives_witness :
    (run_cycles initialState [⟨.netFail "x", none, none⟩]).crashed = false :=
  loop_survives_with_delivered_reports.2 initialState [⟨.netFail "x", none, none⟩]
    (fun e he => by rw [List.mem_singleton] at he; rw [he])

/--
Claim C5 as stated is false on the code: the cursor is overwritten by
each cycle's `current_date` without any monotonicity check, so when the
server reports a smaller `current_date` in a later cycle the cursor
decreases (from 1000 down to 5 here) without the process restarting.
-/
theorem cursor_not_monotonic_counterexample :
    (run_cycles initialState [envA]).final.timestamp = .jnum 1000 ∧
    (run_cycles initialState [envA, envD]).final.timestamp = .jnum 5 ∧
    (5 : Int) < 1000 :=
  ⟨rfl, rfl, by norm_num⟩

/--
Claim C5 (amended): after every successful fetch whose response
subscript `response[current_date]` yields a value, the cursor equals
that value for the rest of the cycle, whatever happens later in the
cycle; the code does not enforce that the sequence of server-reported
`current_date` values — and hence the cursor — is non-decreasing.
-/
theorem cursor_equals_current_date (st : LoopState) (env : CycleEnv) (j cd : Json)
    (hhttp : env.http = .reply 200 (.ok j))
    (hcd : pyGetItem j "current_date" = .ok cd) :
    (run_cycle st env).state.timestamp = cd := by
  have hg : get_api_answer env.http = .ok j := by
    rw [hhttp]; rfl
  have hts : (bodyState (tryBody st env)).timestamp = cd := by
    simp only [tryBody, hg, hcd]
    cases hr : check_response j with
    | error e => rfl
    | ok homework =>
      dsimp only
      cases hp : parse_status homework with
      | error e => rfl
      | ok m =>
        dsimp only
        by_cases hd : m ≠ st.last_message
        · rw [if_pos hd]
          cases env.send1 <;> rfl
        · rw [if_neg hd]
          cases env.send1 <;> rfl
  unfold run_cycle
  cases htb : tryBody st env with
  | inl p =>
      obtain ⟨s, c⟩ := p
      rw [htb] at hts
      exact hts
  | inr p =>
      obtain ⟨e, s, c⟩ := p
      rw [htb] at hts
      rw [handleError_timestamp]
      exact hts

/-- Witness for the amended C5: scenario A's cycle sets the cursor to
the response's `current_date` 1000. -/
theorem cursor_equals_current_date_witness :
    (run_cycle initialState envA).state.timestamp = .jnum 1000 :=
  cursor_equals_current_date initialState envA respA (.jnum 1000) rfl rfl

/--
Claim C8 as stated is false on the code in its `exactly when` part:
here the network call completed and the server answered 200, yet
`get_api_answer` fails with `RequestStatusError`, because the `.json()`
decoding failure is caught by the same broad `except` and wrapped into
`RequestStatusError` too (src/homework.py lines 82-85).
-/
theorem decode_failure_counterexample :
    get_api_answer (.reply 200 (.error "Expecting value: line 1 column 1 (char 0)")) =
      .error (.requestStatusError
        "Ошибка при выполнении запроса:Expecting value: line 1 column 1 (char 0)") :=
  rfl

/--
Claim C8 (amended): `get_api_answer` fails with `RequestStatusError`
exactly when the network call cannot complete, or the server responds
with a status other than 200, or the 200-response body fails to decode
as JSON; and for an HTTP 500 reply the cycle leaves the cursor
unchanged and sends a failure report that contains the status code.
-/
theorem fetch_error_contract :
    (∀ r : HttpResult,
      (∃ m, get_api_answer r = .error (.requestStatusError m)) ↔ fetchFails r = true) ∧
    (∀ (st : LoopState) (env : CycleEnv) (body : Except String Json),
      env.http = .reply 500 body → env.send2 = none → st.last_error ≠ failMsg500 →
      (run_cycle st env).state.timestamp = st.timestamp ∧
      (run_cycle st env).calls = [failMsg500] ∧
      strContainsSub failMsg500 "Статус:500" = true) := by
  constructor
  · intro r
    cases r with
    | netFail e => simp [get_api_answer, fetchFails]
    | reply status body =>
        by_cases hst : status = 200
        · subst hst
          cases body with
          | ok j => simp [get_api_answer, fetchFails]
          | error e => simp [get_api_answer, fetchFails]
        · simp [get_api_answer, fetchFails, hst, bne_iff_ne]
  · intro st env body hhttp hsend2 hlast
    have hg : get_api_answer env.http = .error (.requestStatusError reqErr500) := by
      rw [hhttp]; rfl
    have h1 : tryBody st env = .inr (.requestStatusError reqErr500, st, []) := by
      simp only [tryBody, hg]
    have hm2 : ("Сбой в работе программы: " ++
        PyErr.pyStr (.requestStatusError reqErr500)) = failMsg500 := rfl
    have h2 : run_cycle st env = .next { st with last_error := failMsg500 } [failMsg500] := by
      simp only [run_cycle, h1]
      rw [hsend2]
      simp only [handleError, hm2, send_message, List.nil_append]
      rw [if_pos hlast]
    refine ⟨?_, ?_, by decide⟩
    · rw [h2]; rfl
    · rw [h2]; rfl

/-- Witness for the amended C8: from the initial state, a 500 reply
leaves the cursor at 0 and sends the failure report with the status
code in it. -/
theorem fetch_error_contract_witness :
    (run_cycle initialState ⟨.reply 500 (.ok .jnull), none, none⟩).state.timestamp =
      initialState.timestamp ∧
    (run_cycle initialState ⟨.reply 500 (.ok .jnull), none, none⟩).calls = [failMsg500] ∧
    strContainsSub failMsg500 "Статус:500" = true :=
  fetch_error_contract.2 initialState ⟨.reply 500 (.ok .jnull), none, none⟩
    (.ok .jnull) rfl rfl (by decide)

/--
Claim C9 as stated is false on the code in its exit-code part: with a
required variable missing the process does exit immediately, before the
loop — but via `sys.exit()` with no argument (src/homework.py line 46),
so the exit status is 0, the success code, not a code indicating
abnormal stop.
-/
theorem startup_gate_exit_code_zero :
    main_run ⟨some "p", some "t", none⟩ none [envA] = .exited 0 :=
  rfl

/--
Claim C9 (amended): if any of the three required environment variables
is missing (or empty, which is equally falsy), the process exits
immediately inside `check_tokens`, before the startup notification and
before entering the poll loop — but with exit code 0, since
`sys.exit()` is called with no argument.
-/
theorem missing_token_exits (cfg : Config) (startSend : SendOutcome)
    (envs : List CycleEnv)
    (h : truthy cfg.practicum_token = false ∨ truthy cfg.telegram_token = false ∨
      truthy cfg.telegram_chat_id = false) :
    main_run cfg startSend envs = .exited 0 := by
  rcases h with h | h | h <;> simp [main_run, check_tokens, h]

/-- Witness for the amended C9: all three variables missing exits with
code 0 before the loop. -/
theorem missing_token_exits_witness :
    main_run ⟨none, none, none⟩ none [] = .exited 0 :=
  missing_token_exits ⟨none, none, none⟩ none [] (Or.inl rfl)
